import Mathlib

/-!
Shallow embedding of the werewolves room/session server (`part_001`) and the
orphan relationship tracker (`orphanManager.js`).

Participant identities, room identifiers and role names are strings, as in the
JavaScript source.  JavaScript objects used as keyed maps (`game.players`,
`games`, the orphan `mapData`) are embedded as insertion-ordered association
lists with unique keys; `null`/`undefined`-able fields become `Option`.
Handlers that can dereference `undefined` (a TypeError at runtime) return
`Except JsError`; handlers that cannot return plain results.
-/

namespace Werewolves

abbrev PlayerId := String
abbrev RoomId := String

/-- First-match association-list lookup, standing in for JS property access
`obj[key]` on object-as-map values. -/
def alookup {β : Type} : List (String × β) → String → Option β
  | [], _ => none
  | (k, v) :: rest, key => if key = k then some v else alookup rest key

/-- A participant record (`game.players[id]`). -/
structure Player where
  name : String
  seat : Option Nat
  role : Option String
  isHost : Bool
  isConnected : Bool
  isFake : Bool
deriving DecidableEq, Repr

/-- An occupied seat's `seat.player` object (`{ id, name, isConnected }`). -/
structure SeatOcc where
  id : PlayerId
  name : String
  isConnected : Bool
deriving DecidableEq, Repr

/-- One entry of `game.seats`: a seat number and its occupant, if any. -/
structure Seat where
  id : Nat
  player : Option SeatOcc
deriving DecidableEq, Repr

/-- The per-night action bag `game.nightActions`.  `guardProtect` is absent
(`undefined`) until the guard acts, hence `Option`. -/
structure NightActions where
  werewolfKill : Option PlayerId
  witchSave : Bool
  witchPoison : Option PlayerId
  guardProtect : Option PlayerId
  seerCheck : Option PlayerId
  seerResult : Option String
deriving DecidableEq, Repr

/-- The per-role "has acted" completion flags `game.nightPhaseActions`. -/
structure NightPhaseActions where
  cupid : Bool
  guard : Bool
  werewolf : Bool
  witch : Bool
  seer : Bool
  hunter : Bool
deriving DecidableEq, Repr

/-- The room configuration saved by `configureGame`. -/
structure GameConfig where
  totalPlayers : Nat
  numWerewolves : Nat
  numOrphans : Nat
  numVillagers : Nat
  specialRoles : List String
deriving DecidableEq, Repr

/-- One room (`games[roomId]`).  `playerStates` keeps the ids marked
`poisoned` (the only state the observed core stores there), and
`dayResultsDeaths` is `game.dayResults.deaths`. -/
structure Game where
  hostId : PlayerId
  config : GameConfig
  seats : List Seat
  players : List (PlayerId × Player)
  phase : String
  nightActions : NightActions
  nightPhaseActions : NightPhaseActions
  lovers : List PlayerId
  playerStates : List PlayerId
  dayResultsDeaths : List PlayerId
deriving DecidableEq, Repr

/-- The process-wide room registry `games`. -/
abbrev Registry := List (RoomId × Game)

/-- In-place update of one room's entry, keeping registry order. -/
def updateRoom (reg : Registry) (roomId : RoomId) (g : Game) : Registry :=
  reg.map fun e => if e.1 = roomId then (e.1, g) else e

/-! ### Role pool (`createRolePool`) -/

/-- The unshuffled pool built by `createRolePool`: werewolves, then orphans,
then the configured special roles, then villagers. -/
def allRolesOf (config : GameConfig) : List String :=
  List.replicate config.numWerewolves "werewolf"
    ++ List.replicate config.numOrphans "orphan"
    ++ config.specialRoles
    ++ List.replicate config.numVillagers "villager"

/-- One comparison-sort insertion step, used to embed
`allRoles.sort(() => Math.random() - 0.5)`: the random comparator is an
arbitrary Boolean comparison `cmp`. -/
def sortInsert (cmp : String → String → Bool) (a : String) :
    List String → List String
  | [] => [a]
  | b :: l => if cmp a b then a :: b :: l else b :: sortInsert cmp a l

/-- Comparison sort with an arbitrary (possibly inconsistent) comparator.
Whatever the comparator returns, the result is a permutation of the input,
which is exactly the guarantee `Array.prototype.sort` gives. -/
def jsSort (cmp : String → String → Bool) : List String → List String
  | [] => []
  | a :: l => sortInsert cmp a (jsSort cmp l)

/-- Embeds `createRolePool(config)`: build the role list, then shuffle it with the
random comparator, embedded as the comparator parameter `cmp`. -/
def createRolePool (config : GameConfig) (cmp : String → String → Bool) :
    List String :=
  jsSort cmp (allRolesOf config)

/-! ### Night-phase convergence (`checkNightPhaseComplete`) -/

/-- Presence test `players.some(p => p.role === role)`. -/
def hasRole (g : Game) (role : String) : Bool :=
  g.players.any fun e => e.2.role = some role

/-- Embeds `getSpecialCharactersInGame`: the canonical-order list of special roles
present in the room; werewolf is always included. -/
def getSpecialCharactersInGame (g : Game) : List String :=
  (if hasRole g "cupid" then ["cupid"] else [])
    ++ (if hasRole g "guard" then ["guard"] else [])
    ++ ["werewolf"]
    ++ (if hasRole g "witch" then ["witch"] else [])
    ++ (if hasRole g "seer" then ["seer"] else [])
    ++ (if hasRole g "hunter" then ["hunter"] else [])

/-- Dynamic read `game.nightPhaseActions[character]`. -/
def flagFor (a : NightPhaseActions) (c : String) : Bool :=
  if c = "cupid" then a.cupid
  else if c = "guard" then a.guard
  else if c = "werewolf" then a.werewolf
  else if c = "witch" then a.witch
  else if c = "seer" then a.seer
  else if c = "hunter" then a.hunter
  else false

/-- Embeds `getNextCharacterToAct`: first role in the fixed order witch, seer,
hunter that is present and not yet complete. -/
def getNextCharacterToAct (g : Game) (specialCharacters : List String) :
    Option String :=
  (["witch", "seer", "hunter"].filter fun c =>
      specialCharacters.contains c && !(flagFor g.nightPhaseActions c)).head?

/-- What `checkNightPhaseComplete` decides to do for a room. -/
inductive NightDecision where
  | nothing
  | advanceToDay
  | startCharacter (c : String)
deriving DecidableEq, Repr

/-- The transition decision of `checkNightPhaseComplete(roomId)`: bail out on
a missing room or an incomplete werewolf flag; otherwise either advance toward
the day phase (via the detector election) when every present special role has
acted, or start the next character's sub-phase. -/
def checkNightPhaseDecision (reg : Registry) (roomId : RoomId) :
    NightDecision :=
  match alookup reg roomId with
  | none => .nothing
  | some g =>
    if !g.nightPhaseActions.werewolf then .nothing
    else
      let specialCharacters := getSpecialCharactersInGame g
      let allCompleted := specialCharacters.all (flagFor g.nightPhaseActions)
      if allCompleted then .advanceToDay
      else
        match getNextCharacterToAct g specialCharacters with
        | some c => .startCharacter c
        | none => .nothing

/-! ### Resolution engine (`startDayPhase` death computation) -/

/-- The werewolf-kill contribution to the death list: `deaths.push(kill)` runs
only when a kill target exists, the witch recorded no save, and the guard's
protect target differs from the kill target. -/
def killBranch (na : NightActions) : List PlayerId :=
  match na.werewolfKill with
  | some k => if !na.witchSave && na.guardProtect ≠ some k then [k] else []
  | none => []

/-- The witch-poison contribution: pushed unconditionally when present. -/
def poisonBranch (na : NightActions) : List PlayerId :=
  match na.witchPoison with
  | some p => [p]
  | none => []

/-- The pre-heartbreak death list: kill first, then poison. -/
def preDeaths (na : NightActions) : List PlayerId :=
  killBranch na ++ poisonBranch na

/-- The lover-heartbreak step of `startDayPhase`: with a two-member lover
pair, if exactly one member is in the death list the other is pushed. -/
def heartbreakStep (deaths : List PlayerId) (lovers : List PlayerId) :
    List PlayerId :=
  match lovers with
  | [lover1, lover2] =>
    let lover1Died := deaths.contains lover1
    let lover2Died := deaths.contains lover2
    if lover1Died && !lover2Died then deaths ++ [lover2]
    else if lover2Died && !lover1Died then deaths ++ [lover1]
    else deaths
  | _ => deaths

/-- The full death computation of `startDayPhase`, written exactly as the
source: kill (guarded by save and protection), then poison, then the lover
heartbreak block. -/
def computeDeaths (na : NightActions) (lovers : List PlayerId) :
    List PlayerId :=
  let deaths : List PlayerId :=
    match na.werewolfKill with
    | some k => if !na.witchSave && na.guardProtect ≠ some k then [k] else []
    | none => []
  let deaths := deaths ++
    (match na.witchPoison with
     | some p => [p]
     | none => [])
  match lovers with
  | [lover1, lover2] =>
    let lover1Died := deaths.contains lover1
    let lover2Died := deaths.contains lover2
    if lover1Died && !lover2Died then deaths ++ [lover2]
    else if lover2Died && !lover1Died then deaths ++ [lover1]
    else deaths
  | _ => deaths

/-- Embeds `startDayPhase(roomId)`: missing rooms are a no-op; otherwise store the
computed deaths in `dayResults.deaths` and move the phase to `day`. -/
def startDayPhase (reg : Registry) (roomId : RoomId) : Registry :=
  match alookup reg roomId with
  | none => reg
  | some g =>
    updateRoom reg roomId
      { g with
        dayResultsDeaths := computeDeaths g.nightActions g.lovers
        phase := "day" }

/-! ### Phase-start continuations

Each `startXPhase` function re-reads `games[roomId]` and returns immediately
when the room is gone.  Only their state effects are modelled; emitted
messages and the timers they schedule are transport side effects. -/

/-- Entries of `game.players` holding a given role. -/
def playersWithRole (g : Game) (role : String) : List (PlayerId × Player) :=
  g.players.filter fun e => e.2.role = some role

/-- Embeds `startWerewolfPhase`: with werewolves present it only emits UI; with none
it sets the werewolf completion flag. -/
def startWerewolfPhase (reg : Registry) (roomId : RoomId) : Registry :=
  match alookup reg roomId with
  | none => reg
  | some g =>
    if (playersWithRole g "werewolf").isEmpty then
      updateRoom reg roomId
        { g with nightPhaseActions := { g.nightPhaseActions with werewolf := true } }
    else reg

/-- Embeds `startWitchPhase`: the witch flag is pre-set when no witch, or no real
(non-fake) witch, is present; otherwise only UI is emitted. -/
def startWitchPhase (reg : Registry) (roomId : RoomId) : Registry :=
  match alookup reg roomId with
  | none => reg
  | some g =>
    let witches := playersWithRole g "witch"
    let realWitches := witches.filter fun e => !e.2.isFake
    if witches.isEmpty || realWitches.isEmpty then
      updateRoom reg roomId
        { g with nightPhaseActions := { g.nightPhaseActions with witch := true } }
    else reg

/-- Embeds `startSeerPhase`: symmetric to the witch phase for the seer flag. -/
def startSeerPhase (reg : Registry) (roomId : RoomId) : Registry :=
  match alookup reg roomId with
  | none => reg
  | some g =>
    let seers := playersWithRole g "seer"
    let realSeers := seers.filter fun e => !e.2.isFake
    if seers.isEmpty || realSeers.isEmpty then
      updateRoom reg roomId
        { g with nightPhaseActions := { g.nightPhaseActions with seer := true } }
    else reg

/-- Embeds `startHunterCheckPhase`: absent or only-fake hunters pre-set the hunter
flag; real hunters poisoned this night are marked in `playerStates`. -/
def startHunterCheckPhase (reg : Registry) (roomId : RoomId) : Registry :=
  match alookup reg roomId with
  | none => reg
  | some g =>
    let hunters := playersWithRole g "hunter"
    let realHunters := hunters.filter fun e => !e.2.isFake
    if hunters.isEmpty || realHunters.isEmpty then
      updateRoom reg roomId
        { g with nightPhaseActions := { g.nightPhaseActions with hunter := true } }
    else
      let poisonedIds :=
        (realHunters.filter fun e => g.nightActions.witchPoison = some e.1).map (·.1)
      updateRoom reg roomId
        { g with playerStates :=
            g.playerStates ++ poisonedIds.filter (fun i => !g.playerStates.contains i) }

/-! ### Role-action handlers

Each socket handler receives the room id and acting socket id, and calls back
synchronously with `{ success, message }`.  Dereferencing an `undefined`
player (`game.players[socket.id].role` for an unknown actor, or
`targetPlayer.role` for an unknown seer target) throws a TypeError, embedded
as `Except.error`. -/

/-- A JavaScript runtime exception escaping a handler. -/
inductive JsError where
  | typeError
deriving DecidableEq, Repr

/-- The structured `{ success, message }` callback payload. -/
structure CbResult where
  success : Bool
  message : String
deriving DecidableEq, Repr

/-- The `guardProtect` handler: requires a known actor with the guard role, then
records the protect target (unvalidated) and sets the guard flag. -/
def guardProtectHandler (reg : Registry) (sid : PlayerId) (roomId : RoomId)
    (targetId : PlayerId) : Except JsError (CbResult × Registry) :=
  match alookup reg roomId with
  | none => .ok (⟨false, "Invalid action"⟩, reg)
  | some g =>
    match alookup g.players sid with
    | none => .error .typeError
    | some p =>
      if p.role ≠ some "guard" then .ok (⟨false, "Invalid action"⟩, reg)
      else
        .ok (⟨true, "Player protected"⟩,
          updateRoom reg roomId
            { g with
              nightActions := { g.nightActions with guardProtect := some targetId }
              nightPhaseActions := { g.nightPhaseActions with guard := true } })

/-- The `werewolfKill` handler: requires a known actor with the werewolf role,
then records the kill target (unvalidated) and sets the werewolf flag. -/
def werewolfKillHandler (reg : Registry) (sid : PlayerId) (roomId : RoomId)
    (targetId : PlayerId) : Except JsError (CbResult × Registry) :=
  match alookup reg roomId with
  | none => .ok (⟨false, "Invalid action"⟩, reg)
  | some g =>
    match alookup g.players sid with
    | none => .error .typeError
    | some p =>
      if p.role ≠ some "werewolf" then .ok (⟨false, "Invalid action"⟩, reg)
      else
        .ok (⟨true, "Target selected"⟩,
          updateRoom reg roomId
            { g with
              nightActions := { g.nightActions with werewolfKill := some targetId }
              nightPhaseActions := { g.nightPhaseActions with werewolf := true } })

/-- The `witchSave` handler: rejected when the recorded kill target is the witch
herself; otherwise records the save.  The witch completion flag is set only
by the deferred continuation, not synchronously. -/
def witchSaveHandler (reg : Registry) (sid : PlayerId) (roomId : RoomId) :
    Except JsError (CbResult × Registry) :=
  match alookup reg roomId with
  | none => .ok (⟨false, "Invalid action"⟩, reg)
  | some g =>
    match alookup g.players sid with
    | none => .error .typeError
    | some p =>
      if p.role ≠ some "witch" then .ok (⟨false, "Invalid action"⟩, reg)
      else if g.nightActions.werewolfKill = some sid then
        .ok (⟨false, "You cannot save yourself!"⟩, reg)
      else
        .ok (⟨true, "Player saved"⟩,
          updateRoom reg roomId
            { g with nightActions := { g.nightActions with witchSave := true } })

/-- The `witchPoison` handler: records the poison target (unvalidated); the witch
flag is set only by the deferred continuation. -/
def witchPoisonHandler (reg : Registry) (sid : PlayerId) (roomId : RoomId)
    (targetId : PlayerId) : Except JsError (CbResult × Registry) :=
  match alookup reg roomId with
  | none => .ok (⟨false, "Invalid action"⟩, reg)
  | some g =>
    match alookup g.players sid with
    | none => .error .typeError
    | some p =>
      if p.role ≠ some "witch" then .ok (⟨false, "Invalid action"⟩, reg)
      else
        .ok (⟨true, "Player poisoned"⟩,
          updateRoom reg roomId
            { g with nightActions := { g.nightActions with witchPoison := some targetId } })

/-- The `seerCheck` handler: looks the target up (`targetPlayer.role` throws for
an unknown target), records target and faction result, and does not set the
seer flag (completion needs the separate `seerComplete`). -/
def seerCheckHandler (reg : Registry) (sid : PlayerId) (roomId : RoomId)
    (targetId : PlayerId) : Except JsError (CbResult × Registry) :=
  match alookup reg roomId with
  | none => .ok (⟨false, "Invalid action"⟩, reg)
  | some g =>
    match alookup g.players sid with
    | none => .error .typeError
    | some p =>
      if p.role ≠ some "seer" then .ok (⟨false, "Invalid action"⟩, reg)
      else
        match alookup g.players targetId with
        | none => .error .typeError
        | some targetPlayer =>
          let isWerewolf := targetPlayer.role = some "werewolf"
          .ok (⟨true, "Check complete"⟩,
            updateRoom reg roomId
              { g with nightActions :=
                  { g.nightActions with
                    seerCheck := some targetId
                    seerResult := some (if isWerewolf then "werewolf" else "good man") } })

/-! ### Disconnect handler -/

/-- The per-room mutation of the `disconnect` handler: mark the player and
their seat occupant disconnected, keeping seat and role. -/
def markDisconnected (g : Game) (sid : PlayerId) : Game :=
  { g with
    players := g.players.map fun e =>
      if e.1 = sid then (e.1, { e.2 with isConnected := false }) else e
    seats := g.seats.map fun s =>
      match s.player with
      | some occ =>
        if occ.id = sid then { s with player := some { occ with isConnected := false } }
        else s
      | none => s }

/-- The `disconnect` handler: scan the registry for the first room holding
the socket, mark it disconnected there, and — when the socket is that room's
host — delete the room; the loop then breaks. -/
def disconnectHandler : Registry → PlayerId → Registry
  | [], _ => []
  | (roomId, g) :: rest, sid =>
    if (alookup g.players sid).isSome then
      if sid = g.hostId then rest
      else (roomId, markDisconnected g sid) :: rest
    else (roomId, g) :: disconnectHandler rest sid

/-! ### Orphan relationship tracker (`orphanManager.buildOrphanChains`) -/

/-- One entry of the enriched orphan→father `mapData`. -/
structure MapEntry where
  orphanName : String
  orphanSeat : Nat
  fatherId : PlayerId
  fatherName : String
  fatherSeat : Nat
deriving DecidableEq, Repr

/-- One node pushed onto a chain: id, display name, seat. -/
structure ChainNode where
  id : PlayerId
  name : String
  seat : Nat
deriving DecidableEq, Repr

/-- One chain: visited nodes, loop marker, and the rendered text. -/
structure Chain where
  nodes : List ChainNode
  hasLoop : Bool
  text : String
deriving DecidableEq, Repr

/-- The `while (currentId && mapData[currentId])` walk of one chain.  Ids are
nonempty socket-id strings, so the JS truthiness test on `currentId` is the
map-membership test.  Returns the pushed nodes, the loop flag, the final
`currentId`, and the updated visited set.  The walk is structurally recursive
on a fuel list: each iteration adds a fresh key of `m` to `pathSet` and then
either exits or repeats a key, so the loop runs at most `m.length + 1` times
and any fuel of at least that length (the caller passes `m ++ m` for nonempty
`m`) reproduces the JS loop exactly. -/
def chainWalk (m : List (PlayerId × MapEntry)) :
    List (PlayerId × MapEntry) → PlayerId → List PlayerId → List PlayerId →
    List ChainNode → List ChainNode × Bool × PlayerId × List PlayerId
  | [], currentId, _, visited, nodes => (nodes, false, currentId, visited)
  | _ :: fuel, currentId, pathSet, visited, nodes =>
    match alookup m currentId with
    | none => (nodes, false, currentId, visited)
    | some data =>
      if pathSet.contains currentId then (nodes, true, currentId, visited)
      else
        chainWalk m fuel data.fatherId (pathSet ++ [currentId])
          (visited ++ [currentId])
          (nodes ++ [⟨currentId, data.orphanName, data.orphanSeat⟩])

/-- Render one node as `name (Seat n)`. -/
def nodeText (n : ChainNode) : String :=
  n.name ++ " (Seat " ++ toString n.seat ++ ")"

/-- Build the chain starting at one not-yet-visited orphan: run the walk,
append the terminal non-orphan father when the walk left the map, and render
the text (with the loop marker when a node reappeared). -/
def buildChainFrom (m : List (PlayerId × MapEntry)) (orphanId : PlayerId)
    (visited : List PlayerId) : Chain × List PlayerId :=
  let r := chainWalk m (m ++ m) orphanId [] visited []
  let nodes := r.1
  let hasLoop := r.2.1
  let currentId := r.2.2.1
  let nodes :=
    if (alookup m currentId).isNone && !nodes.isEmpty then
      match nodes.getLast? with
      | some lastNode =>
        match alookup m lastNode.id with
        | some fatherData =>
          nodes ++ [⟨fatherData.fatherId, fatherData.fatherName, fatherData.fatherSeat⟩]
        | none => nodes
      | none => nodes
    else nodes
  let text := String.intercalate " → " (nodes.map nodeText)
  let text := if hasLoop then text ++ " → [LOOP]" else text
  (⟨nodes, hasLoop, text⟩, r.2.2.2)

/-- The `for (const orphanId in mapData)` loop of `buildOrphanChains`,
skipping already-visited orphans and pushing nonempty chains. -/
def buildChainsLoop (m : List (PlayerId × MapEntry)) :
    List (PlayerId × MapEntry) → List PlayerId → List Chain → List Chain
  | [], _, chains => chains
  | (orphanId, _) :: rest, visited, chains =>
    if visited.contains orphanId then buildChainsLoop m rest visited chains
    else
      let r := buildChainFrom m orphanId visited
      buildChainsLoop m rest r.2
        (if r.1.nodes.isEmpty then chains else chains ++ [r.1])

/-- Embeds `buildOrphanChains(gameId, mapData)`. -/
def buildOrphanChains (m : List (PlayerId × MapEntry)) : List Chain :=
  buildChainsLoop m m [] []

/-! ### Helper lemmas -/

theorem sortInsert_perm (cmp : String → String → Bool) (a : String) :
    ∀ l : List String, (sortInsert cmp a l).Perm (a :: l) := by
  intro l
  induction l with
  | nil => simp [sortInsert]
  | cons b l ih =>
    simp only [sortInsert]
    by_cases h : cmp a b
    · simp [h]
    · simp only [h, if_neg, Bool.false_eq_true, not_false_eq_true, if_false]
      exact ((ih.cons b).trans (List.Perm.swap a b l))

theorem jsSort_perm (cmp : String → String → Bool) :
    ∀ l : List String, (jsSort cmp l).Perm l := by
  intro l
  induction l with
  | nil => simp [jsSort]
  | cons a l ih =>
    exact (sortInsert_perm cmp a (jsSort cmp l)).trans (ih.cons a)

theorem alookup_eq_none_of_not_mem {β : Type} (l : List (String × β))
    (key : String) (h : key ∉ l.map Prod.fst) : alookup l key = none := by
  induction l with
  | nil => rfl
  | cons e rest ih =>
    simp only [List.map_cons, List.mem_cons, not_or] at h
    simp only [alookup, if_neg h.1]
    exact ih h.2

/-- The function `computeDeaths` is the heartbreak step applied to the kill-then-poison
pre-deaths: the decomposition used to reason about order stability. -/
theorem computeDeaths_eq (na : NightActions) (lovers : List PlayerId) :
    computeDeaths na lovers = heartbreakStep (preDeaths na) lovers := rfl

theorem mem_heartbreakStep {a : PlayerId} {d lovers : List PlayerId}
    (h : a ∈ heartbreakStep d lovers) : a ∈ d ∨ a ∈ lovers := by
  unfold heartbreakStep at h
  match lovers with
  | [] => exact Or.inl h
  | [l] => exact Or.inl h
  | l1 :: l2 :: l3 :: rest => exact Or.inl h
  | [l1, l2] =>
    simp only at h
    split at h
    · rcases List.mem_append.1 h with h' | h'
      · exact Or.inl h'
      · simp only [List.mem_singleton] at h'
        exact Or.inr (by simp [h'])
    · split at h
      · rcases List.mem_append.1 h with h' | h'
        · exact Or.inl h'
        · simp only [List.mem_singleton] at h'
          exact Or.inr (by simp [h'])
      · exact Or.inl h

theorem mem_of_mem_heartbreakStep {a : PlayerId} {d lovers : List PlayerId}
    (h : a ∈ d) : a ∈ heartbreakStep d lovers := by
  unfold heartbreakStep
  match lovers with
  | [] => exact h
  | [l] => exact h
  | l1 :: l2 :: l3 :: rest => exact h
  | [l1, l2] =>
    simp only
    split
    · exact List.mem_append_left _ h
    · split
      · exact List.mem_append_left _ h
      · exact h

theorem heartbreakStep_nodup {d lovers : List PlayerId} (h : d.Nodup) :
    (heartbreakStep d lovers).Nodup := by
  unfold heartbreakStep
  match lovers with
  | [] => exact h
  | [l] => exact h
  | l1 :: l2 :: l3 :: rest => exact h
  | [l1, l2] =>
    simp only
    split
    · next hc =>
      simp only [Bool.and_eq_true, Bool.not_eq_true', List.elem_iff,
        decide_eq_true_eq, decide_eq_false_iff_not] at hc
      simpa [List.nodup_append, h] using hc.2
    · split
      · next hc =>
        simp only [Bool.and_eq_true, Bool.not_eq_true', List.elem_iff,
          decide_eq_true_eq, decide_eq_false_iff_not] at hc
        simpa [List.nodup_append, h] using hc.2
      · exact h

/-! ## Claim C6 — role pool construction and shuffle -/

/-- C6: for every configuration whose role counts (werewolves, orphans,
villagers, plus one per special-role entry) sum to the seat count, the built
pool has length exactly the seat count and contains each configured role
exactly the configured number of times, and the shuffle permutes the pool
without changing its multiset of tokens. -/
theorem createRolePool_spec (config : GameConfig) (cmp : String → String → Bool)
    (hsum : config.numWerewolves + config.numOrphans + config.specialRoles.length
      + config.numVillagers = config.totalPlayers)
    (hnd : config.specialRoles.Nodup)
    (hw : "werewolf" ∉ config.specialRoles)
    (ho : "orphan" ∉ config.specialRoles)
    (hv : "villager" ∉ config.specialRoles) :
    (createRolePool config cmp).length = config.totalPlayers ∧
    (createRolePool config cmp).Perm (allRolesOf config) ∧
    (createRolePool config cmp).count "werewolf" = config.numWerewolves ∧
    (createRolePool config cmp).count "orphan" = config.numOrphans ∧
    (createRolePool config cmp).count "villager" = config.numVillagers ∧
    ∀ r ∈ config.specialRoles, (createRolePool config cmp).count r = 1 := by
  have hperm : (createRolePool config cmp).Perm (allRolesOf config) :=
    jsSort_perm cmp (allRolesOf config)
  refine ⟨?_, hperm, ?_, ?_, ?_, ?_⟩
  · rw [hperm.length_eq]
    simp only [allRolesOf, List.length_append, List.length_replicate]
    omega
  · rw [hperm.count_eq]
    simp [allRolesOf, List.count_append, List.count_replicate,
      List.count_eq_zero.mpr hw]
  · rw [hperm.count_eq]
    simp [allRolesOf, List.count_append, List.count_replicate,
      List.count_eq_zero.mpr ho]
  · rw [hperm.count_eq]
    simp [allRolesOf, List.count_append, List.count_replicate,
      List.count_eq_zero.mpr hv]
  · intro r hr
    rw [hperm.count_eq]
    have hrw : r ≠ "werewolf" := fun h => hw (h ▸ hr)
    have hro : r ≠ "orphan" := fun h => ho (h ▸ hr)
    have hrv : r ≠ "villager" := fun h => hv (h ▸ hr)
    simp [allRolesOf, List.count_append, List.count_replicate, hrw, hro, hrv,
      Ne.symm hrw, Ne.symm hro, Ne.symm hrv,
      List.count_eq_one_of_mem hnd hr]

/-- Witness for C6 at the spec's scenario configuration
`{totalSeats: 6, werewolves: 2, villagers: 3, special: [seer]}`. -/
theorem createRolePool_spec_witness :
    (createRolePool ⟨6, 2, 0, 3, ["seer"]⟩ (fun _ _ => false)).length = 6 ∧
    (createRolePool ⟨6, 2, 0, 3, ["seer"]⟩ (fun _ _ => false)).Perm
      (allRolesOf ⟨6, 2, 0, 3, ["seer"]⟩) ∧
    (createRolePool ⟨6, 2, 0, 3, ["seer"]⟩ (fun _ _ => false)).count "werewolf" = 2 ∧
    (createRolePool ⟨6, 2, 0, 3, ["seer"]⟩ (fun _ _ => false)).count "orphan" = 0 ∧
    (createRolePool ⟨6, 2, 0, 3, ["seer"]⟩ (fun _ _ => false)).count "villager" = 3 ∧
    ∀ r ∈ (GameConfig.mk 6 2 0 3 ["seer"]).specialRoles,
      (createRolePool ⟨6, 2, 0, 3, ["seer"]⟩ (fun _ _ => false)).count r = 1 :=
  createRolePool_spec ⟨6, 2, 0, 3, ["seer"]⟩ (fun _ _ => false)
    (by decide) (by decide) (by decide) (by decide) (by decide)

/-! ## Claim C1 — night-phase convergence -/

/-- C1: for an existing room, convergence does nothing while the werewolf
flag is false; once it is true, it advances toward the day phase when every
present special role's flag is true, and otherwise starts the first
not-yet-complete role in the priority order witch, seer, hunter.  In
particular, with roles werewolf, seer, hunter present and witch, cupid, guard
absent, the seer sub-phase starts before the hunter sub-phase and advancement
never consults the absent witch's flag. -/
theorem checkNightPhaseComplete_convergence (reg : Registry) (roomId : RoomId)
    (g : Game) (hg : alookup reg roomId = some g) :
    (g.nightPhaseActions.werewolf = false →
      checkNightPhaseDecision reg roomId = .nothing) ∧
    (g.nightPhaseActions.werewolf = true →
      ((getSpecialCharactersInGame g).all (flagFor g.nightPhaseActions) = true →
        checkNightPhaseDecision reg roomId = .advanceToDay) ∧
      (∀ c, (getSpecialCharactersInGame g).all (flagFor g.nightPhaseActions) = false →
        getNextCharacterToAct g (getSpecialCharactersInGame g) = some c →
        checkNightPhaseDecision reg roomId = .startCharacter c)) ∧
    (hasRole g "werewolf" = true → hasRole g "seer" = true →
     hasRole g "hunter" = true → hasRole g "witch" = false →
     hasRole g "cupid" = false → hasRole g "guard" = false →
     g.nightPhaseActions.werewolf = true →
      (g.nightPhaseActions.seer = false →
        checkNightPhaseDecision reg roomId = .startCharacter "seer") ∧
      (g.nightPhaseActions.seer = true → g.nightPhaseActions.hunter = false →
        checkNightPhaseDecision reg roomId = .startCharacter "hunter") ∧
      (g.nightPhaseActions.seer = true → g.nightPhaseActions.hunter = true →
        checkNightPhaseDecision reg roomId = .advanceToDay)) := by
  refine ⟨?_, ?_, ?_⟩
  · intro hww
    simp [checkNightPhaseDecision, hg, hww]
  · intro hww
    constructor
    · intro hall
      simp [checkNightPhaseDecision, hg, hww, hall]
    · intro c hall hnext
      simp [checkNightPhaseDecision, hg, hww, hall, hnext]
  · intro hpw hps hph hnw hnc hng hww
    have hspec : getSpecialCharactersInGame g = ["werewolf", "seer", "hunter"] := by
      simp [getSpecialCharactersInGame, hpw, hps, hph, hnw, hnc, hng]
    refine ⟨?_, ?_, ?_⟩
    · intro hseer
      simp [checkNightPhaseDecision, hg, hww, hspec, getNextCharacterToAct,
        flagFor, hseer]
    · intro hseer hhunter
      simp [checkNightPhaseDecision, hg, hww, hspec, getNextCharacterToAct,
        flagFor, hseer, hhunter]
    · intro hseer hhunter
      simp [checkNightPhaseDecision, hg, hww, hspec, getNextCharacterToAct,
        flagFor, hseer, hhunter]

/-- A concrete room holding exactly the roles werewolf, seer and hunter, with
the werewolf flag set and the seer not yet complete. -/
def c1game : Game where
  hostId := "host"
  config := ⟨3, 1, 0, 0, ["seer", "hunter"]⟩
  seats := []
  players :=
    [("w1", ⟨"Wolf", some 1, some "werewolf", true, true, false⟩),
     ("s1", ⟨"Sara", some 2, some "seer", false, true, false⟩),
     ("h1", ⟨"Hank", some 3, some "hunter", false, true, false⟩)]
  phase := "night"
  nightActions := ⟨none, false, none, none, none, none⟩
  nightPhaseActions := ⟨true, true, true, false, false, false⟩
  lovers := []
  playerStates := []
  dayResultsDeaths := []

/-- Witness for C1: in the concrete werewolf/seer/hunter room the seer
sub-phase is the one started after the werewolf completes, with the absent
witch's flag still false. -/
theorem checkNightPhaseComplete_convergence_witness :
    checkNightPhaseDecision [("R", c1game)] "R" = .startCharacter "seer" :=
  ((checkNightPhaseComplete_convergence [("R", c1game)] "R" c1game
    (by decide)).2.2 (by decide) (by decide) (by decide) (by decide)
    (by decide) (by decide) (by decide)).1 (by decide)

/-! ## Claim C2 — guard protection vs the kill -/

/-- A night bag where the guard protects the werewolf's target but the witch
poisons that same target. -/
def c2na : NightActions :=
  { werewolfKill := some "A"
    witchSave := false
    witchPoison := some "A"
    guardProtect := some "A"
    seerCheck := none
    seerResult := none }

/-- Counterexample to C2 as stated: with the guard's protect target equal to
the kill target, the kill target still appears in the computed deaths when
the witch's poison names the same identity. -/
theorem c2_counterexample :
    c2na.guardProtect = c2na.werewolfKill ∧ c2na.werewolfKill = some "A" ∧
    "A" ∈ computeDeaths c2na [] := by
  refine ⟨rfl, rfl, ?_⟩
  decide

/-- C2 amended: when the guard's protect target equals the kill target, the
kill branch contributes nothing — the kill target (assumed not a lover)
appears in the deaths iff the witch's poison names it; and in general the
kill takes effect exactly when a kill target exists, no witch save is
recorded, and the protect target differs from the kill target. -/
theorem guardProtection_negates_kill (na : NightActions)
    (lovers : List PlayerId) (k : PlayerId) :
    (na.werewolfKill = some k → na.guardProtect = some k → k ∉ lovers →
      (k ∈ computeDeaths na lovers ↔ na.witchPoison = some k)) ∧
    (k ∈ killBranch na ↔
      na.werewolfKill = some k ∧ na.witchSave = false ∧
        na.guardProtect ≠ some k) := by
  constructor
  · intro hkill hprot hlov
    rw [computeDeaths_eq]
    have hkb : killBranch na = [] := by
      simp [killBranch, hkill, hprot]
    have hpre : preDeaths na = poisonBranch na := by
      simp [preDeaths, hkb]
    constructor
    · intro hmem
      rcases mem_heartbreakStep hmem with h | h
      · rw [hpre] at h
        unfold poisonBranch at h
        revert h
        cases hp : na.witchPoison with
        | none => simp
        | some p =>
          intro h
          simp only [List.mem_singleton] at h
          subst h
          rfl
      · exact absurd h hlov
    · intro hp
      apply mem_of_mem_heartbreakStep
      rw [hpre]
      simp [poisonBranch, hp]
  · unfold killBranch
    cases hk : na.werewolfKill with
    | none => simp [hk]
    | some k' =>
      cases hs : na.witchSave with
      | true => simp [hk, hs]
      | false =>
        by_cases hg : na.guardProtect = some k'
        · rw [hg]
          constructor
          · intro h
            simp at h
          · rintro ⟨hEq, -, hne⟩
            exact absurd hEq hne
        · constructor
          · intro h
            simp [hg] at h
            subst h
            exact ⟨rfl, rfl, hg⟩
          · rintro ⟨hEq, -, -⟩
            obtain rfl : k' = k := by injection hEq
            simp [hg]

/-- Witness for C2 amended: guard protects the kill target, witch poisons
someone else, no lovers — the kill target does not die. -/
theorem guardProtection_negates_kill_witness :
    ("A" ∈ computeDeaths
        ⟨some "A", false, some "B", some "A", none, none⟩ [] ↔
      NightActions.witchPoison ⟨some "A", false, some "B", some "A", none, none⟩
        = some "A") ∧
    ¬ "A" ∈ computeDeaths ⟨some "A", false, some "B", some "A", none, none⟩ [] := by
  have h := (guardProtection_negates_kill
    ⟨some "A", false, some "B", some "A", none, none⟩ [] "A").1
    rfl rfl (by decide)
  exact ⟨h, fun hm => by simpa using h.mp hm⟩

/-! ## Claim C3 — death-list deduplication and order stability -/

/-- A night bag where the kill takes effect and the poison names the same
target. -/
def c3na : NightActions :=
  { werewolfKill := some "A"
    witchSave := false
    witchPoison := some "A"
    guardProtect := none
    seerCheck := none
    seerResult := none }

/-- Counterexample to C3 as stated: when the poison target equals an
effective kill target the death list holds that identity twice, so it is not
deduplicated for every night-action bag. -/
theorem c3_counterexample :
    computeDeaths c3na [] = ["A", "A"] ∧ ¬ (computeDeaths c3na []).Nodup := by
  constructor <;> decide

/-- C3 amended: the deaths are listed in first-computed order — the kill
branch, then the poison branch, then the heartbreak addition — and the list
is duplicate-free for every bag in which the poison target does not coincide
with an effective werewolf kill; in that coinciding case (shown by the
counterexample) the identity appears twice. -/
theorem computeDeaths_nodup (na : NightActions) (lovers : List PlayerId)
    (h : ∀ k, na.werewolfKill = some k → na.witchSave = false →
      na.guardProtect ≠ some k → na.witchPoison ≠ some k) :
    (computeDeaths na lovers).Nodup ∧
    computeDeaths na lovers =
      heartbreakStep (killBranch na ++ poisonBranch na) lovers := by
  refine ⟨?_, computeDeaths_eq na lovers⟩
  rw [computeDeaths_eq]
  apply heartbreakStep_nodup
  unfold preDeaths killBranch poisonBranch
  match hk : na.werewolfKill with
  | none =>
    match na.witchPoison with
    | none => simp
    | some p => simp
  | some k =>
    by_cases hs : na.witchSave
    · match na.witchPoison with
      | none => simp [hs]
      | some p => simp [hs]
    · by_cases hg : na.guardProtect = some k
      · match na.witchPoison with
        | none => simp [hs, hg]
        | some p => simp [hs, hg]
      · have hp := h k hk (by simpa using hs) hg
        simp only [Bool.not_eq_true] at hs
        match hpo : na.witchPoison with
        | none => simp [hs, hg]
        | some p =>
          have : p ≠ k := fun he => hp (by rw [hpo, he])
          simp [hs, hg, List.nodup_cons, this, Ne.symm this]

/-- Witness for C3 amended: an effective kill of `A` plus a poison of `B`
yields the duplicate-free, order-stable list `[A, B]`. -/
theorem computeDeaths_nodup_witness :
    (computeDeaths ⟨some "A", false, some "B", none, none, none⟩ []).Nodup ∧
    computeDeaths ⟨some "A", false, some "B", none, none, none⟩ [] =
      heartbreakStep
        (killBranch ⟨some "A", false, some "B", none, none, none⟩ ++
          poisonBranch ⟨some "A", false, some "B", none, none, none⟩) [] :=
  computeDeaths_nodup ⟨some "A", false, some "B", none, none, none⟩ []
    (by decide)

/-! ## Claim C4 — lover heartbreak idempotence -/

/-- C4: with the lover pair `[A, B]`, if the kill/poison resolution's
pre-heartbreak list holds exactly one of the pair, the survivor is appended
exactly once; if it holds both or neither, nothing lover-related is added. -/
theorem heartbreak_idempotent (na : NightActions) (A B : PlayerId) :
    (A ∈ preDeaths na → B ∉ preDeaths na →
      computeDeaths na [A, B] = preDeaths na ++ [B]) ∧
    (B ∈ preDeaths na → A ∉ preDeaths na →
      computeDeaths na [A, B] = preDeaths na ++ [A]) ∧
    (A ∈ preDeaths na → B ∈ preDeaths na →
      computeDeaths na [A, B] = preDeaths na) ∧
    (A ∉ preDeaths na → B ∉ preDeaths na →
      computeDeaths na [A, B] = preDeaths na) := by
  rw [computeDeaths_eq]
  refine ⟨?_, ?_, ?_, ?_⟩ <;> intro h1 h2 <;>
    simp [heartbreakStep, List.elem_iff, h1, h2]

/-- Witness for C4: lovers `[A, B]`, effective kill of `A`, no poison — `B`
is appended exactly once as the heartbreak casualty. -/
theorem heartbreak_idempotent_witness :
    computeDeaths ⟨some "A", false, none, none, none, none⟩ ["A", "B"] =
      preDeaths ⟨some "A", false, none, none, none, none⟩ ++ ["B"] :=
  (heartbreak_idempotent ⟨some "A", false, none, none, none, none⟩ "A" "B").1
    (by decide) (by decide)

/-! ## Claim C5 — role-action error handling -/

/-- A room whose only participant is its host (a werewolf). -/
def c5game : Game where
  hostId := "host"
  config := ⟨1, 1, 0, 0, []⟩
  seats := [⟨1, some ⟨"host", "Hannah", true⟩⟩]
  players := [("host", ⟨"Hannah", some 1, some "werewolf", true, true, false⟩)]
  phase := "night"
  nightActions := ⟨none, false, none, none, none, none⟩
  nightPhaseActions := ⟨true, true, false, true, true, true⟩
  lovers := []
  playerStates := []
  dayResultsDeaths := []

/-- Counterexample to C5 as stated: a `werewolfKill` submitted for an
existing room by an actor unknown to the room does not return a structured
success/failure result — the handler dereferences an undefined player and
throws a TypeError. -/
theorem c5_counterexample :
    ¬ ∃ (res : CbResult) (reg' : Registry),
      werewolfKillHandler [("R", c5game)] "alice" "R" "bob" =
        .ok (res, reg') := by
  rintro ⟨res, reg', h⟩
  have : werewolfKillHandler [("R", c5game)] "alice" "R" "bob" =
      .error .typeError := by rfl
  rw [this] at h
  exact Except.noConfusion h

/-- C5 amended: a role action for an unknown room, or by a known actor whose
role does not match the action, returns the structured failure
`Invalid action` and leaves the registry (hence every room) unchanged; an
action by an actor unknown to the room instead throws a TypeError, and so
does `seerCheck` submitted by the room's seer but naming a target unknown to
the room. -/
theorem roleActionHandlers_reject (reg : Registry) (sid : PlayerId)
    (roomId : RoomId) (targetId : PlayerId) :
    (alookup reg roomId = none →
      guardProtectHandler reg sid roomId targetId = .ok (⟨false, "Invalid action"⟩, reg) ∧
      werewolfKillHandler reg sid roomId targetId = .ok (⟨false, "Invalid action"⟩, reg) ∧
      witchSaveHandler reg sid roomId = .ok (⟨false, "Invalid action"⟩, reg) ∧
      witchPoisonHandler reg sid roomId targetId = .ok (⟨false, "Invalid action"⟩, reg) ∧
      seerCheckHandler reg sid roomId targetId = .ok (⟨false, "Invalid action"⟩, reg)) ∧
    (∀ g p, alookup reg roomId = some g → alookup g.players sid = some p →
      (p.role ≠ some "guard" →
        guardProtectHandler reg sid roomId targetId = .ok (⟨false, "Invalid action"⟩, reg)) ∧
      (p.role ≠ some "werewolf" →
        werewolfKillHandler reg sid roomId targetId = .ok (⟨false, "Invalid action"⟩, reg)) ∧
      (p.role ≠ some "witch" →
        witchSaveHandler reg sid roomId = .ok (⟨false, "Invalid action"⟩, reg) ∧
        witchPoisonHandler reg sid roomId targetId = .ok (⟨false, "Invalid action"⟩, reg)) ∧
      (p.role ≠ some "seer" →
        seerCheckHandler reg sid roomId targetId = .ok (⟨false, "Invalid action"⟩, reg))) ∧
    (∀ g, alookup reg roomId = some g → alookup g.players sid = none →
      guardProtectHandler reg sid roomId targetId = .error .typeError ∧
      werewolfKillHandler reg sid roomId targetId = .error .typeError ∧
      witchSaveHandler reg sid roomId = .error .typeError ∧
      witchPoisonHandler reg sid roomId targetId = .error .typeError ∧
      seerCheckHandler reg sid roomId targetId = .error .typeError) ∧
    (∀ g p, alookup reg roomId = some g → alookup g.players sid = some p →
      p.role = some "seer" → alookup g.players targetId = none →
      seerCheckHandler reg sid roomId targetId = .error .typeError) := by
  refine ⟨?_, ?_, ?_, ?_⟩
  · intro h
    exact ⟨by simp [guardProtectHandler, h], by simp [werewolfKillHandler, h],
      by simp [witchSaveHandler, h], by simp [witchPoisonHandler, h],
      by simp [seerCheckHandler, h]⟩
  · intro g p hg hp
    refine ⟨?_, ?_, ?_, ?_⟩
    · intro hrole
      simp [guardProtectHandler, hg, hp, hrole]
    · intro hrole
      simp [werewolfKillHandler, hg, hp, hrole]
    · intro hrole
      exact ⟨by simp [witchSaveHandler, hg, hp, hrole],
        by simp [witchPoisonHandler, hg, hp, hrole]⟩
    · intro hrole
      simp [seerCheckHandler, hg, hp, hrole]
  · intro g hg hp
    exact ⟨by simp [guardProtectHandler, hg, hp],
      by simp [werewolfKillHandler, hg, hp],
      by simp [witchSaveHandler, hg, hp],
      by simp [witchPoisonHandler, hg, hp],
      by simp [seerCheckHandler, hg, hp]⟩
  · intro g p hg hp hrole htarget
    simp [seerCheckHandler, hg, hp, hrole, htarget]

/-- A room whose only participant is its host, a seer. -/
def c5seerGame : Game where
  hostId := "seer1"
  config := ⟨1, 0, 0, 0, ["seer"]⟩
  seats := [⟨1, some ⟨"seer1", "Selma", true⟩⟩]
  players := [("seer1", ⟨"Selma", some 1, some "seer", true, true, false⟩)]
  phase := "night"
  nightActions := ⟨none, false, none, none, none, none⟩
  nightPhaseActions := ⟨true, true, true, true, false, true⟩
  lovers := []
  playerStates := []
  dayResultsDeaths := []

/-- Witness for C5 amended: a kill submitted by the werewolf for an unknown
room id fails structurally; a `guardProtect` submitted by the werewolf host
(role mismatch) fails structurally with the registry untouched; and a
`seerCheck` submitted by the room's seer naming an unknown target throws. -/
theorem roleActionHandlers_reject_witness :
    werewolfKillHandler [("R", c5game)] "host" "NOPE" "bob" =
      .ok (⟨false, "Invalid action"⟩, [("R", c5game)]) ∧
    guardProtectHandler [("R", c5game)] "host" "R" "bob" =
      .ok (⟨false, "Invalid action"⟩, [("R", c5game)]) ∧
    seerCheckHandler [("S", c5seerGame)] "seer1" "S" "ghost" =
      .error .typeError :=
  ⟨((roleActionHandlers_reject [("R", c5game)] "host" "NOPE" "bob").1
      (by decide)).2.1,
   ((roleActionHandlers_reject [("R", c5game)] "host" "R" "bob").2.1 c5game
      ⟨"Hannah", some 1, some "werewolf", true, true, false⟩
      (by decide) (by decide)).1 (by decide),
   (roleActionHandlers_reject [("S", c5seerGame)] "seer1" "S" "ghost").2.2.2
      c5seerGame ⟨"Selma", some 1, some "seer", true, true, false⟩
      (by decide) (by decide) (by decide) (by decide)⟩

/-! ## Claim C7 — witch self-save rejection -/

/-- C7: `witchSave` by the witch is rejected without any state change when
the recorded kill target is the witch's own identity, and succeeds, recording
the save, when the kill target is any other identity or absent. -/
theorem witchSave_no_self_save (reg : Registry) (sid : PlayerId)
    (roomId : RoomId) (g : Game) (p : Player)
    (hg : alookup reg roomId = some g)
    (hp : alookup g.players sid = some p)
    (hrole : p.role = some "witch") :
    (g.nightActions.werewolfKill = some sid →
      witchSaveHandler reg sid roomId = .ok (⟨false, "You cannot save yourself!"⟩, reg)) ∧
    (g.nightActions.werewolfKill ≠ some sid →
      witchSaveHandler reg sid roomId =
        .ok (⟨true, "Player saved"⟩,
          updateRoom reg roomId
            { g with nightActions := { g.nightActions with witchSave := true } })) := by
  constructor
  · intro hkill
    simp [witchSaveHandler, hg, hp, hrole, hkill]
  · intro hkill
    simp [witchSaveHandler, hg, hp, hrole, hkill]

/-- A room whose witch is the werewolves' kill target. -/
def c7game : Game where
  hostId := "host"
  config := ⟨2, 1, 0, 0, ["witch"]⟩
  seats := []
  players :=
    [("host", ⟨"Hank", some 1, some "werewolf", true, true, false⟩),
     ("wit", ⟨"Wilma", some 2, some "witch", false, true, false⟩)]
  phase := "night"
  nightActions := ⟨some "wit", false, none, none, none, none⟩
  nightPhaseActions := ⟨true, true, true, false, false, false⟩
  lovers := []
  playerStates := []
  dayResultsDeaths := []

/-- Witness for C7: the targeted witch's save is rejected and the registry is
returned unchanged. -/
theorem witchSave_no_self_save_witness :
    witchSaveHandler [("R", c7game)] "wit" "R" =
      .ok (⟨false, "You cannot save yourself!"⟩, [("R", c7game)]) :=
  (witchSave_no_self_save [("R", c7game)] "wit" "R" c7game
      ⟨"Wilma", some 2, some "witch", false, true, false⟩
      (by decide) (by decide) (by decide)).1 (by decide)

/-! ## Claim C10 — targeted night actions validate no target -/

/-- C10: `werewolfKill`, `witchPoison` and `guardProtect` perform no target
validation — for every target id, including the actor's own identity and ids
unknown to the room, the action succeeds, records the target in the
night-action bag, and reports success, provided the actor holds the matching
role. -/
theorem targetedActions_skip_target_validation (reg : Registry)
    (sid : PlayerId) (roomId : RoomId) (targetId : PlayerId) (g : Game)
    (p : Player) (hg : alookup reg roomId = some g)
    (hp : alookup g.players sid = some p) :
    (p.role = some "guard" →
      guardProtectHandler reg sid roomId targetId =
        .ok (⟨true, "Player protected"⟩,
          updateRoom reg roomId
            { g with
              nightActions := { g.nightActions with guardProtect := some targetId }
              nightPhaseActions := { g.nightPhaseActions with guard := true } })) ∧
    (p.role = some "werewolf" →
      werewolfKillHandler reg sid roomId targetId =
        .ok (⟨true, "Target selected"⟩,
          updateRoom reg roomId
            { g with
              nightActions := { g.nightActions with werewolfKill := some targetId }
              nightPhaseActions := { g.nightPhaseActions with werewolf := true } })) ∧
    (p.role = some "witch" →
      witchPoisonHandler reg sid roomId targetId =
        .ok (⟨true, "Player poisoned"⟩,
          updateRoom reg roomId
            { g with nightActions := { g.nightActions with witchPoison := some targetId } })) := by
  refine ⟨?_, ?_, ?_⟩ <;> intro hrole
  · simp [guardProtectHandler, hg, hp, hrole]
  · simp [werewolfKillHandler, hg, hp, hrole]
  · simp [witchPoisonHandler, hg, hp, hrole]

/-- Witness for C10: in the host-only room the werewolf kills their own
identity — an id that is also absent from no-one's seat list — and the kill
is recorded with success. -/
theorem targetedActions_skip_target_validation_witness :
    werewolfKillHandler [("R", c5game)] "host" "R" "host" =
      .ok (⟨true, "Target selected"⟩,
        updateRoom [("R", c5game)] "R"
          { c5game with
            nightActions := { c5game.nightActions with werewolfKill := some "host" }
            nightPhaseActions := { c5game.nightPhaseActions with werewolf := true } }) :=
  (targetedActions_skip_target_validation [("R", c5game)] "host" "R" "host"
      c5game ⟨"Hannah", some 1, some "werewolf", true, true, false⟩
      (by decide) (by decide)).2.1 (by decide)

/-! ## Claim C8 — host disconnect invalidates delayed continuations -/

theorem startWerewolfPhase_noop (reg : Registry) (roomId : RoomId)
    (h : alookup reg roomId = none) : startWerewolfPhase reg roomId = reg := by
  simp [startWerewolfPhase, h]

theorem startWitchPhase_noop (reg : Registry) (roomId : RoomId)
    (h : alookup reg roomId = none) : startWitchPhase reg roomId = reg := by
  simp [startWitchPhase, h]

theorem startSeerPhase_noop (reg : Registry) (roomId : RoomId)
    (h : alookup reg roomId = none) : startSeerPhase reg roomId = reg := by
  simp [startSeerPhase, h]

theorem startHunterCheckPhase_noop (reg : Registry) (roomId : RoomId)
    (h : alookup reg roomId = none) : startHunterCheckPhase reg roomId = reg := by
  simp [startHunterCheckPhase, h]

theorem startDayPhase_noop (reg : Registry) (roomId : RoomId)
    (h : alookup reg roomId = none) : startDayPhase reg roomId = reg := by
  simp [startDayPhase, h]

theorem checkNightPhaseDecision_noop (reg : Registry) (roomId : RoomId)
    (h : alookup reg roomId = none) :
    checkNightPhaseDecision reg roomId = .nothing := by
  simp [checkNightPhaseDecision, h]

theorem disconnectHandler_removes_hosted_room (reg : Registry)
    (sid : PlayerId) (roomId : RoomId) (g : Game)
    (hnd : (reg.map Prod.fst).Nodup)
    (hg : alookup reg roomId = some g)
    (hmem : (alookup g.players sid).isSome = true)
    (hhost : g.hostId = sid)
    (honly : reg.all (fun e => !(alookup e.2.players sid).isSome || e.1 == roomId) = true) :
    alookup (disconnectHandler reg sid) roomId = none := by
  induction reg with
  | nil => simp [alookup] at hg
  | cons e rest ih =>
    obtain ⟨r0, g0⟩ := e
    simp only [List.map_cons, List.nodup_cons] at hnd
    simp only [List.all_cons, Bool.and_eq_true] at honly
    by_cases hr : roomId = r0
    · subst hr
      have hg0 : g0 = g := by simpa [alookup] using hg
      subst hg0
      have hstep : disconnectHandler ((roomId, g0) :: rest) sid = rest := by
        simp [disconnectHandler, hmem, hhost]
      rw [hstep]
      exact alookup_eq_none_of_not_mem rest roomId hnd.1
    · have hg' : alookup rest roomId = some g := by
        simpa [alookup, hr] using hg
      have h0 : (alookup g0.players sid).isSome = false := by
        rcases Bool.or_eq_true_iff.mp honly.1 with h | h
        · simpa using h
        · have hr0 : r0 = roomId := by simpa using h
          exact absurd hr0.symm hr
      have hstep : disconnectHandler ((r0, g0) :: rest) sid =
          (r0, g0) :: disconnectHandler rest sid := by
        simp [disconnectHandler, h0]
      rw [hstep]
      simp only [alookup, if_neg hr]
      exact ih hnd.2 hg' honly.2

/-- C8: when a room's host disconnects (the host being a participant only of
that room), the room is deleted from the registry, and every delayed
continuation subsequently firing for that room id — the phase starters, the
convergence check, and the day transition — is a no-op leaving the registry,
and hence every remaining room, unchanged. -/
theorem hostDisconnect_invalidates_continuations (reg : Registry)
    (sid : PlayerId) (roomId : RoomId) (g : Game)
    (hnd : (reg.map Prod.fst).Nodup)
    (hg : alookup reg roomId = some g)
    (hmem : (alookup g.players sid).isSome = true)
    (hhost : g.hostId = sid)
    (honly : reg.all (fun e => !(alookup e.2.players sid).isSome || e.1 == roomId) = true) :
    alookup (disconnectHandler reg sid) roomId = none ∧
    startWerewolfPhase (disconnectHandler reg sid) roomId = disconnectHandler reg sid ∧
    startWitchPhase (disconnectHandler reg sid) roomId = disconnectHandler reg sid ∧
    startSeerPhase (disconnectHandler reg sid) roomId = disconnectHandler reg sid ∧
    startHunterCheckPhase (disconnectHandler reg sid) roomId = disconnectHandler reg sid ∧
    startDayPhase (disconnectHandler reg sid) roomId = disconnectHandler reg sid ∧
    checkNightPhaseDecision (disconnectHandler reg sid) roomId = .nothing := by
  have hnone := disconnectHandler_removes_hosted_room reg sid roomId g hnd hg
    hmem hhost honly
  exact ⟨hnone, startWerewolfPhase_noop _ _ hnone, startWitchPhase_noop _ _ hnone,
    startSeerPhase_noop _ _ hnone, startHunterCheckPhase_noop _ _ hnone,
    startDayPhase_noop _ _ hnone, checkNightPhaseDecision_noop _ _ hnone⟩

/-- A second, unrelated room used by the C8 witness. -/
def c8gameB : Game where
  hostId := "hostB"
  config := ⟨1, 1, 0, 0, []⟩
  seats := []
  players := [("hostB", ⟨"Bert", some 1, some "villager", true, true, false⟩)]
  phase := "lobby"
  nightActions := ⟨none, false, none, none, none, none⟩
  nightPhaseActions := ⟨false, false, false, false, false, false⟩
  lovers := []
  playerStates := []
  dayResultsDeaths := []

/-- Witness for C8: in a two-room registry, the host of room `R` disconnects;
`R` is gone and each delayed continuation for `R` leaves the registry — still
holding room `B` — unchanged. -/
theorem hostDisconnect_invalidates_continuations_witness :
    alookup (disconnectHandler [("R", c5game), ("B", c8gameB)] "host") "R" = none ∧
    startWerewolfPhase (disconnectHandler [("R", c5game), ("B", c8gameB)] "host") "R" =
      disconnectHandler [("R", c5game), ("B", c8gameB)] "host" ∧
    startWitchPhase (disconnectHandler [("R", c5game), ("B", c8gameB)] "host") "R" =
      disconnectHandler [("R", c5game), ("B", c8gameB)] "host" ∧
    startSeerPhase (disconnectHandler [("R", c5game), ("B", c8gameB)] "host") "R" =
      disconnectHandler [("R", c5game), ("B", c8gameB)] "host" ∧
    startHunterCheckPhase (disconnectHandler [("R", c5game), ("B", c8gameB)] "host") "R" =
      disconnectHandler [("R", c5game), ("B", c8gameB)] "host" ∧
    startDayPhase (disconnectHandler [("R", c5game), ("B", c8gameB)] "host") "R" =
      disconnectHandler [("R", c5game), ("B", c8gameB)] "host" ∧
    checkNightPhaseDecision (disconnectHandler [("R", c5game), ("B", c8gameB)] "host") "R" =
      .nothing :=
  hostDisconnect_invalidates_continuations [("R", c5game), ("B", c8gameB)]
    "host" "R" c5game (by decide) (by decide) (by decide) (by decide) (by decide)

/-! ## Claim C9 — orphan chains -/

/-- C9: for distinct participants, the map `A→B→C` with `C` not a dependent
yields exactly one chain whose nodes are `A`, `B`, `C` in that order (the
non-dependent protector appended as terminal node) with `hasLoop = false`,
while `A→B→C→A` yields one chain that stops at the repeated node `A` after
recording `A`, `B`, `C`, marked `hasLoop = true`. -/
theorem buildOrphanChains_spec (A B C : PlayerId) (nA nB nC : String)
    (sA sB sC : Nat) (hAB : A ≠ B) (hBC : B ≠ C) (hAC : A ≠ C) :
    ((buildOrphanChains [(A, ⟨nA, sA, B, nB, sB⟩), (B, ⟨nB, sB, C, nC, sC⟩)]).map
        fun c => (c.nodes, c.hasLoop)) =
      [([⟨A, nA, sA⟩, ⟨B, nB, sB⟩, ⟨C, nC, sC⟩], false)] ∧
    ((buildOrphanChains [(A, ⟨nA, sA, B, nB, sB⟩), (B, ⟨nB, sB, C, nC, sC⟩),
        (C, ⟨nC, sC, A, nA, sA⟩)]).map fun c => (c.nodes, c.hasLoop)) =
      [([⟨A, nA, sA⟩, ⟨B, nB, sB⟩, ⟨C, nC, sC⟩], true)] := by
  constructor <;>
    simp [buildOrphanChains, buildChainsLoop, buildChainFrom, chainWalk,
      alookup, nodeText, hAB, hBC, hAC, Ne.symm hAB, Ne.symm hBC, Ne.symm hAC]

/-- Witness for C9 at concrete participants. -/
theorem buildOrphanChains_spec_witness :
    ((buildOrphanChains [("a", ⟨"Ann", 1, "b", "Ben", 2⟩),
        ("b", ⟨"Ben", 2, "c", "Cal", 3⟩)]).map
        fun c => (c.nodes, c.hasLoop)) =
      [([⟨"a", "Ann", 1⟩, ⟨"b", "Ben", 2⟩, ⟨"c", "Cal", 3⟩], false)] ∧
    ((buildOrphanChains [("a", ⟨"Ann", 1, "b", "Ben", 2⟩),
        ("b", ⟨"Ben", 2, "c", "Cal", 3⟩),
        ("c", ⟨"Cal", 3, "a", "Ann", 1⟩)]).map
        fun c => (c.nodes, c.hasLoop)) =
      [([⟨"a", "Ann", 1⟩, ⟨"b", "Ben", 2⟩, ⟨"c", "Cal", 3⟩], true)] :=
  buildOrphanChains_spec "a" "b" "c" "Ann" "Ben" "Cal" 1 2 3
    (by decide) (by decide) (by decide)

end Werewolves
